import Mathlib

/-!
Shallow embedding of `src/server.js` (tillpoint-whatsapp-backend): an Express
server bridging HTTP requests to a whatsapp-web.js client.  The process-wide
mutable state is three variables (`isInitializing`, `isRestarting`,
`cachedState`); the collaborator (the whatsapp-web.js `Client`) is opaque, so
each handler takes an oracle describing the outcomes of the collaborator calls
it may make, and returns, besides the HTTP response and the new state, the
list of collaborator calls it performed and the timers it scheduled.
Webhook delivery (`sendWebhook`) and console logging touch none of the three
state variables and no claim mentions them, so they are not modelled.
-/

namespace Tillpoint

/-- A JSON value as it can appear in a request body field.  `obj` stands for
any object or array (always truthy); numbers are modelled as integers, which
covers every truthiness case a claim mentions. -/
inductive JsValue where
  | str (s : String)
  | num (n : Int)
  | boolean (b : Bool)
  | null
  | obj
deriving DecidableEq, Repr

/-- JavaScript truthiness of a value. -/
def JsValue.truthy : JsValue → Bool
  | .str s => s ≠ ""
  | .num n => n ≠ 0
  | .boolean b => b
  | .null => false
  | .obj => true

/-- Truthiness of a possibly absent body field (`none` = the key is absent,
so the destructured variable is `undefined`, which is falsy). -/
def jsTruthy : Option JsValue → Bool
  | none => false
  | some v => v.truthy

/-- Truthiness of the resolved value of `client.getState()`: `none` models
`undefined`/`null`, and the empty string is the one falsy string. -/
def strTruthy : Option String → Bool
  | none => false
  | some s => s ≠ ""

/-- The JavaScript expression `v || d` for `v` a string-or-nullish value and
`d` a string, as in `cachedState = state || cachedState`. -/
def jsOrStr (v : Option String) (d : String) : String :=
  if strTruthy v then v.getD d else d

/-- The three process-wide mutable variables of server.js (lines 33-35).
`cachedState` is a `String` exactly as in the source: nothing in the code
restricts it to the three enum values. -/
structure ServerState where
  isInitializing : Bool
  isRestarting : Bool
  cachedState : String
deriving DecidableEq, Repr

/-- The variables as declared at module load (lines 33-35), before the
`safeInitialize('startup')` call at line 250 runs. -/
def initialState : ServerState :=
  { isInitializing := false, isRestarting := false, cachedState := "INITIALIZING" }

/-- A call made against the collaborator (the whatsapp-web.js client). -/
inductive CollabCall where
  | initClient
  | getState
  | send (chatId content : Option JsValue)
  | clientLogout
  | destroy
deriving DecidableEq, Repr

/-- A `setTimeout` scheduled by a handler; both handlers that schedule one
run `safeInitialize(reason); isRestarting = false;` when it fires. -/
structure Timer where
  delayMs : Nat
  reason : String
deriving DecidableEq, Repr

/-- An HTTP response: status code plus the JSON body fields server.js ever
sets (absent fields are `none`).  `res.json(...)` without `res.status`
defaults to 200. -/
structure Response where
  status : Nat := 200
  success : Option Bool := none
  error : Option String := none
  message : Option String := none
  msgId : Option String := none
  state : Option String := none
deriving DecidableEq, Repr

/-- What one handler invocation produces: the response, the state after the
synchronous part of the handler, the collaborator calls made, and the timers
scheduled. -/
structure HandlerResult where
  resp : Response
  state : ServerState
  calls : List CollabCall
  timers : List Timer
deriving DecidableEq, Repr

/-- `safeInitialize` (server.js lines 37-51).  `reason` only feeds the log
line.  `initThrows` tells whether `client.initialize()` raises synchronously;
the call itself happens either way, so it is recorded in both branches. -/
def safeInitialize (reason : String) (initThrows : Bool) (s : ServerState) :
    ServerState × List CollabCall :=
  if s.isInitializing then (s, [])
  else
    let s1 : ServerState := { s with isInitializing := true, cachedState := "INITIALIZING" }
    if initThrows then ({ s1 with isInitializing := false }, [CollabCall.initClient])
    else (s1, [CollabCall.initClient])

/-- The lifecycle events the client emits (server.js lines 89-133). -/
inductive Lifecycle where
  | qr
  | ready
  | authenticated
  | authFailure
  | disconnected
deriving DecidableEq, Repr

/-- The state effect of each lifecycle event handler (server.js lines
89-133); each also fires a webhook, which touches no state variable. -/
def lifecycleStep : Lifecycle → ServerState → ServerState
  | .qr, s => { s with cachedState := "INITIALIZING", isInitializing := false }
  | .ready, s => { s with cachedState := "CONNECTED", isInitializing := false }
  | .authenticated, s => { s with isInitializing := false }
  | .authFailure, s => { s with cachedState := "DISCONNECTED", isInitializing := false }
  | .disconnected, s => { s with cachedState := "DISCONNECTED", isInitializing := false }

/-- The `checkApiKey` middleware test (server.js lines 22-28): the
`x-api-key` header (`none` when absent) must equal the configured key
byte-for-byte (JavaScript `!==` on strings). -/
def checkApiKey (apiKeyHeader : Option String) (apiKey : String) : Bool :=
  apiKeyHeader == some apiKey

/-- The 401 response `checkApiKey` sends on a mismatch (server.js line 25). -/
def unauthorizedResp : Response :=
  { status := 401, success := some false, error := some "Unauthorized" }

/-- Route wrapper: runs `checkApiKey` first; on a mismatch the 401 is
returned and the handler never runs (no state change, no calls, no
timers). -/
def protect (apiKeyHeader : Option String) (apiKey : String)
    (handler : ServerState → HandlerResult) (s : ServerState) : HandlerResult :=
  if checkApiKey apiKeyHeader apiKey then handler s
  else { resp := unauthorizedResp, state := s, calls := [], timers := [] }

/-- The request body of POST /client/sendMessage: the destructured fields
(`contentType` is destructured in the source and then never used, so it is
omitted). `none` means the key is absent from the body. -/
structure SendBody where
  chatId : Option JsValue
  content : Option JsValue
deriving DecidableEq, Repr

/-- Outcomes of the collaborator calls the sendMessage handler may make.
`getStateResult` models `await client.getState()`: `Except.error e` a
rejection whose `error.toString()` is `e`, `Except.ok v` a resolution with
value `v` (`none` = nullish).  `sendResult` models
`await client.sendMessage(...)`: `Except.ok i` resolves with a message whose
id is `i`. -/
structure SendOracle where
  getStateResult : Except String (Option String)
  sendResult : Except String String
deriving Repr

/-- The tail of the sendMessage handler once the state check passed
(server.js lines 162-174): one `client.sendMessage(chatId, content,
sendSeen false)` call, then the 200 body with the message id, or the catch
block's 500 with the stringified error.  (The masked chat id is only
logged.) -/
def finishSend (o : SendOracle) (body : SendBody) (s : ServerState)
    (calls : List CollabCall) : HandlerResult :=
  match o.sendResult with
  | Except.ok mid =>
      { resp := { status := 200, success := some true, msgId := some mid },
        state := s, calls := calls ++ [CollabCall.send body.chatId body.content],
        timers := [] }
  | Except.error e =>
      { resp := { status := 500, success := some false, error := some e },
        state := s, calls := calls ++ [CollabCall.send body.chatId body.content],
        timers := [] }

/-- POST /client/sendMessage/:sessionId handler body (server.js lines
140-175), after `checkApiKey` has passed.  Mirrors the source: a falsy
`chatId` or `content` gives the 400; then `let state = cachedState`; if that
is not CONNECTED a live `client.getState()` runs and
`cachedState = state || cachedState`; if the (possibly refreshed) `state` is
still not CONNECTED the 503 carries `state || INITIALIZING`; otherwise the
send runs.  A rejection of `getState` lands in the catch block (500). -/
def sendMessageRoute (o : SendOracle) (body : SendBody) (s : ServerState) :
    HandlerResult :=
  if !jsTruthy body.chatId || !jsTruthy body.content then
    { resp := { status := 400, success := some false, error := some "Missing chatId or content" },
      state := s, calls := [], timers := [] }
  else if s.cachedState = "CONNECTED" then
    finishSend o body s []
  else
    match o.getStateResult with
    | Except.error e =>
        { resp := { status := 500, success := some false, error := some e },
          state := s, calls := [CollabCall.getState], timers := [] }
    | Except.ok live =>
        let s1 : ServerState := { s with cachedState := jsOrStr live s.cachedState }
        if live = some "CONNECTED" then
          finishSend o body s1 [CollabCall.getState]
        else
          { resp := { status := 503, success := some false, error := some ("WhatsApp client not ready. Current state: " ++ jsOrStr live "INITIALIZING") },
            state := s1, calls := [CollabCall.getState], timers := [] }

/-- GET /session/status/:sessionId handler body (server.js lines 178-186):
always one live `client.getState()`; on resolution the cache is refreshed
with `state || cachedState` and the 200 body carries `state` verbatim; on
rejection the response is still HTTP 200 with a failure payload and the
cache is untouched. -/
def statusRoute (getStateResult : Except String (Option String))
    (s : ServerState) : HandlerResult :=
  match getStateResult with
  | Except.ok st =>
      { resp := { status := 200, success := some true, state := st },
        state := { s with cachedState := jsOrStr st s.cachedState },
        calls := [CollabCall.getState], timers := [] }
  | Except.error e =>
      { resp := { status := 200, success := some false, error := some e },
        state := s, calls := [CollabCall.getState], timers := [] }

/-- Outcomes of the collaborator calls the logout handler may make:
`none` = the call resolves, `some e` = it rejects with stringified error
`e`. -/
structure LogoutOracle where
  logoutResult : Option String
  destroyResult : Option String
deriving DecidableEq, Repr

/-- POST /session/logout/:sessionId handler body (server.js lines 189-219).
If `isRestarting` is set: 202, nothing else happens.  Otherwise the flag is
set and `client.logout()` runs; on success a 2000 ms timer is scheduled and
the 200 returned.  On failure the fallback `client.destroy()` runs; if it
succeeds, timer plus 200; if it also rejects, `isRestarting` is cleared and
the 500 carries the toString of the ORIGINAL logout error. -/
def logoutRoute (o : LogoutOracle) (s : ServerState) : HandlerResult :=
  if s.isRestarting then
    { resp := { status := 202, success := some true, message := some "Restart already in progress." },
      state := s, calls := [], timers := [] }
  else
    let s1 : ServerState := { s with isRestarting := true }
    match o.logoutResult with
    | none =>
        { resp := { status := 200, success := some true, message := some "Logged out. New QR code will be generated." },
          state := s1, calls := [CollabCall.clientLogout],
          timers := [{ delayMs := 2000, reason := "logout" }] }
    | some err =>
        match o.destroyResult with
        | none =>
            { resp := { status := 200, success := some true, message := some "Session destroyed. New QR code will be generated." },
              state := s1, calls := [CollabCall.clientLogout, CollabCall.destroy],
              timers := [{ delayMs := 2000, reason := "logout_destroy" }] }
        | some _ =>
            { resp := { status := 500, success := some false, error := some err },
              state := { s1 with isRestarting := false },
              calls := [CollabCall.clientLogout, CollabCall.destroy], timers := [] }

/-- POST /session/restart/:sessionId handler body (server.js lines 222-242).
If `isRestarting` is set: 202.  Otherwise the flag is set and
`client.destroy()` runs; on success a 3000 ms timer plus the 200; on
rejection the flag is cleared and the 500 carries the stringified error. -/
def restartRoute (destroyResult : Option String) (s : ServerState) :
    HandlerResult :=
  if s.isRestarting then
    { resp := { status := 202, success := some true, message := some "Restart already in progress." },
      state := s, calls := [], timers := [] }
  else
    let s1 : ServerState := { s with isRestarting := true }
    match destroyResult with
    | none =>
        { resp := { status := 200, success := some true, message := some "Client restarting. New QR code will appear in logs." },
          state := s1, calls := [CollabCall.destroy],
          timers := [{ delayMs := 3000, reason := "restart" }] }
    | some err =>
        { resp := { status := 500, success := some false, error := some err },
          state := { s1 with isRestarting := false },
          calls := [CollabCall.destroy], timers := [] }

/-- One unit of work the event loop can dispatch: a lifecycle callback, a
direct `safeInitialize` call (the startup call at line 250), a timer firing
(which runs `safeInitialize(reason)` and then clears `isRestarting`), or an
HTTP request to one of the four protected routes, with its `x-api-key`
header and the oracle for the collaborator calls it may make. -/
inductive Event where
  | lifecycle (ev : Lifecycle)
  | initCall (reason : String) (initThrows : Bool)
  | timerFire (reason : String) (initThrows : Bool)
  | sendReq (hdr : Option String) (body : SendBody) (o : SendOracle)
  | statusReq (hdr : Option String) (r : Except String (Option String))
  | logoutReq (hdr : Option String) (o : LogoutOracle)
  | restartReq (hdr : Option String) (o : LogoutOracle)
deriving Repr

/-- The state transition and collaborator calls of one event, with `apiKey`
the configured secret.  (Responses and newly scheduled timers are not needed
for the run-level invariants and are dropped here; the per-request theorems
use the handler functions directly.) -/
def step (apiKey : String) (e : Event) (s : ServerState) :
    ServerState × List CollabCall :=
  match e with
  | .lifecycle ev => (lifecycleStep ev s, [])
  | .initCall reason thr => safeInitialize reason thr s
  | .timerFire reason thr =>
      let p := safeInitialize reason thr s
      ({ p.1 with isRestarting := false }, p.2)
  | .sendReq hdr body o =>
      let r := protect hdr apiKey (sendMessageRoute o body) s
      (r.state, r.calls)
  | .statusReq hdr q =>
      let r := protect hdr apiKey (statusRoute q) s
      (r.state, r.calls)
  | .logoutReq hdr o =>
      let r := protect hdr apiKey (logoutRoute o) s
      (r.state, r.calls)
  | .restartReq hdr o =>
      let r := protect hdr apiKey (restartRoute o.destroyResult) s
      (r.state, r.calls)

/-- Run a sequence of events from a state, collecting all collaborator
calls in order. -/
def run (apiKey : String) (s : ServerState) : List Event →
    ServerState × List CollabCall
  | [] => (s, [])
  | e :: rest =>
      let p := step apiKey e s
      let q := run apiKey p.1 rest
      (q.1, p.2 ++ q.2)

/-- Whether a call list contains a `send` call. -/
def hasSend (cs : List CollabCall) : Bool :=
  cs.any fun c => match c with
    | CollabCall.send _ _ => true
    | _ => false

/-- The number of `client.initialize()` invocations in a call list. -/
def initCount (cs : List CollabCall) : Nat :=
  cs.count CollabCall.initClient

/-- The number of `client.getState()` invocations in a call list. -/
def getStateCount (cs : List CollabCall) : Nat :=
  cs.count CollabCall.getState

/-- Whether a string is one of the three documented connection-state values. -/
def goodState (v : String) : Bool :=
  v == "INITIALIZING" || v == "CONNECTED" || v == "DISCONNECTED"

/-- Whether a `client.getState()` outcome resolves only to a documented
state value or to a falsy value (a rejection is allowed: it never reaches
the cache). -/
def goodQuery : Except String (Option String) → Bool
  | Except.ok (some v) => v == "" || goodState v
  | _ => true

/-- Whether every `client.getState()` outcome an event can feed into the
cache satisfies `goodQuery`. -/
def eventGoodQueries : Event → Bool
  | .sendReq _ _ o => goodQuery o.getStateResult
  | .statusReq _ r => goodQuery r
  | _ => true

/-- A run made of direct `safeInitialize` calls only, started while the
flag is set, changes nothing and performs no collaborator call. -/
theorem run_initCalls_flag_set (key : String) (es : List Event)
    (hes : ∀ e ∈ es, ∃ r t, e = Event.initCall r t) :
    ∀ s : ServerState, s.isInitializing = true → run key s es = (s, []) := by
  induction es with
  | nil => intro s _; rfl
  | cons e rest ih =>
      intro s hs
      obtain ⟨r, t, rfl⟩ := hes e (List.mem_cons_self e rest)
      have hstep : step key (Event.initCall r t) s = (s, []) := by
        simp [step, safeInitialize, hs]
      have hrest := ih (fun e he => hes e (List.mem_cons_of_mem _ he)) s hs
      simp [run, hstep, hrest]

/-- Refreshing the cache with `state || cachedState` keeps it among the
documented values when the old value is documented and the query outcome is
documented-or-falsy. -/
theorem jsOrStr_goodState (v : Option String) (d : String)
    (hd : goodState d = true) (hv : goodQuery (Except.ok v) = true) :
    goodState (jsOrStr v d) = true := by
  cases v with
  | none => simpa [jsOrStr, strTruthy] using hd
  | some s =>
      by_cases hs : s = ""
      · simp [jsOrStr, strTruthy, hs, hd]
      · simp only [goodQuery] at hv
        rw [Bool.or_eq_true] at hv
        rcases hv with hv | hv
        · exact absurd (by simpa using hv) hs
        · simp [jsOrStr, strTruthy, hs, hv]

/-- The state the send tail leaves is the state it was given. -/
theorem finishSend_state (o : SendOracle) (body : SendBody) (s : ServerState)
    (calls : List CollabCall) : (finishSend o body s calls).state = s := by
  unfold finishSend
  rcases o.sendResult with e | mid <;> rfl

/-- The sendMessage handler keeps the cache among the documented values
when its live query can only resolve to documented-or-falsy values. -/
theorem sendMessageRoute_goodState (o : SendOracle) (body : SendBody)
    (s : ServerState) (hg : goodQuery o.getStateResult = true)
    (hs : goodState s.cachedState = true) :
    goodState (sendMessageRoute o body s).state.cachedState = true := by
  obtain ⟨gr, sr⟩ := o
  rcases gr with e | live
  · simp only [sendMessageRoute]
    split
    · exact hs
    · split
      · rw [finishSend_state]; exact hs
      · exact hs
  · simp only [sendMessageRoute]
    split
    · exact hs
    · split
      · rw [finishSend_state]; exact hs
      · split
        · rw [finishSend_state]
          exact jsOrStr_goodState live s.cachedState hs hg
        · exact jsOrStr_goodState live s.cachedState hs hg

/-- The status handler keeps the cache among the documented values when its
live query can only resolve to documented-or-falsy values. -/
theorem statusRoute_goodState (q : Except String (Option String))
    (s : ServerState) (hg : goodQuery q = true)
    (hs : goodState s.cachedState = true) :
    goodState (statusRoute q s).state.cachedState = true := by
  cases q with
  | error e => simpa [statusRoute] using hs
  | ok st => simpa [statusRoute] using jsOrStr_goodState st s.cachedState hs hg

/-- The logout handler never touches the cache. -/
theorem logoutRoute_cachedState (o : LogoutOracle) (s : ServerState) :
    (logoutRoute o s).state.cachedState = s.cachedState := by
  unfold logoutRoute
  split
  · rfl
  · cases o.logoutResult with
    | none => rfl
    | some e => cases o.destroyResult <;> rfl

/-- The restart handler never touches the cache. -/
theorem restartRoute_cachedState (d : Option String) (s : ServerState) :
    (restartRoute d s).state.cachedState = s.cachedState := by
  unfold restartRoute
  split
  · rfl
  · cases d <;> rfl

/-- `safeInitialize` leaves the cache among the documented values. -/
theorem safeInitialize_goodState (reason : String) (thr : Bool)
    (s : ServerState) (hs : goodState s.cachedState = true) :
    goodState (safeInitialize reason thr s).1.cachedState = true := by
  unfold safeInitialize
  split
  · exact hs
  · cases thr <;> rfl

/-- One event keeps the cache among the documented values, provided the
live-query outcomes it carries are documented-or-falsy. -/
theorem step_preserves_goodState (key : String) (e : Event) (s : ServerState)
    (hg : eventGoodQueries e = true) (hs : goodState s.cachedState = true) :
    goodState (step key e s).1.cachedState = true := by
  cases e with
  | lifecycle ev => cases ev <;> first | rfl | exact hs
  | initCall r t => exact safeInitialize_goodState r t s hs
  | timerFire r t => exact safeInitialize_goodState r t s hs
  | sendReq hdr body o =>
      simp only [step, protect]
      split
      · exact sendMessageRoute_goodState o body s hg hs
      · exact hs
  | statusReq hdr q =>
      simp only [step, protect]
      split
      · exact statusRoute_goodState q s hg hs
      · exact hs
  | logoutReq hdr o =>
      simp only [step, protect]
      split
      · rw [logoutRoute_cachedState]; exact hs
      · exact hs
  | restartReq hdr o =>
      simp only [step, protect]
      split
      · rw [restartRoute_cachedState]; exact hs
      · exact hs

/-- A whole run keeps the cache among the documented values, provided every
live-query outcome in it is documented-or-falsy. -/
theorem run_preserves_goodState (key : String) (es : List Event) :
    ∀ s : ServerState, (∀ e ∈ es, eventGoodQueries e = true) →
      goodState s.cachedState = true →
      goodState (run key s es).1.cachedState = true := by
  induction es with
  | nil => intro s _ hs; exact hs
  | cons e rest ih =>
      intro s hes hs
      have h1 := step_preserves_goodState key e s
        (hes e (List.mem_cons_self e rest)) hs
      have h2 := ih (step key e s).1 (fun x hx => hes x (List.mem_cons_of_mem _ hx)) h1
      simpa [run] using h2

/-- C1: a `safeInitialize` call while the initialization flag is already
set logs and returns at once, making no collaborator call; hence over any
nonempty sequence of overlapping start-session calls in which no call fails
synchronously and no lifecycle event intervenes, exactly one
`client.initialize()` invocation occurs. -/
theorem safeInitialize_single_init :
    (∀ (reason : String) (thr : Bool) (s : ServerState),
        s.isInitializing = true → safeInitialize reason thr s = (s, [])) ∧
    (∀ (key : String) (s : ServerState) (reasons : List String),
        s.isInitializing = false → reasons ≠ [] →
        initCount (run key s (reasons.map fun r => Event.initCall r false)).2 = 1) := by
  constructor
  · intro reason thr s hs
    simp [safeInitialize, hs]
  · intro key s reasons hs hne
    match reasons with
    | [] => exact absurd rfl hne
    | r :: rest =>
        have h1 : step key (Event.initCall r false) s =
            ({ s with isInitializing := true, cachedState := "INITIALIZING" },
             [CollabCall.initClient]) := by
          simp [step, safeInitialize, hs]
        have h2 := run_initCalls_flag_set key
          (rest.map fun a => Event.initCall a false)
          (by
            intro e he
            simp only [List.mem_map] at he
            obtain ⟨a, _, rfl⟩ := he
            exact ⟨a, false, rfl⟩)
          { s with isInitializing := true, cachedState := "INITIALIZING" } rfl
        simp [run, h1, h2, initCount]

/-- Witness for C1: the second overlapping call is a no-op and a concrete
two-call sequence performs one initialize invocation. -/
theorem safeInitialize_single_init_witness :
    safeInitialize "again" false
        { isInitializing := true, isRestarting := false, cachedState := "INITIALIZING" } =
      ({ isInitializing := true, isRestarting := false, cachedState := "INITIALIZING" }, []) ∧
    initCount (run "key" initialState
        (["startup", "again"].map fun r => Event.initCall r false)).2 = 1 :=
  ⟨safeInitialize_single_init.1 "again" false _ rfl,
   safeInitialize_single_init.2 "key" initialState ["startup", "again"] rfl (by decide)⟩

/-- C2: while the shared restart flag is set, both the logout endpoint and
the restart endpoint reject the request at once with 202 and body success
true, message "Restart already in progress.", leave the state unchanged,
make no collaborator call (in particular no destroy and no logout) and
schedule nothing; the one flag serves both endpoints. -/
theorem restart_flag_rejects_second_request (o : LogoutOracle)
    (d : Option String) (s : ServerState) (hs : s.isRestarting = true) :
    logoutRoute o s =
      { resp := { status := 202, success := some true, message := some "Restart already in progress." },
        state := s, calls := [], timers := [] } ∧
    restartRoute d s =
      { resp := { status := 202, success := some true, message := some "Restart already in progress." },
        state := s, calls := [], timers := [] } := by
  constructor
  · simp [logoutRoute, hs]
  · simp [restartRoute, hs]

/-- Witness for C2 at a concrete in-flight state. -/
theorem restart_flag_rejects_second_request_witness :
    logoutRoute { logoutResult := none, destroyResult := none }
        { isInitializing := false, isRestarting := true, cachedState := "CONNECTED" } =
      { resp := { status := 202, success := some true, message := some "Restart already in progress." },
        state := { isInitializing := false, isRestarting := true, cachedState := "CONNECTED" },
        calls := [], timers := [] } ∧
    restartRoute none
        { isInitializing := false, isRestarting := true, cachedState := "CONNECTED" } =
      { resp := { status := 202, success := some true, message := some "Restart already in progress." },
        state := { isInitializing := false, isRestarting := true, cachedState := "CONNECTED" },
        calls := [], timers := [] } :=
  restart_flag_rejects_second_request { logoutResult := none, destroyResult := none } none _ rfl

/-- C5: a request to any of the four protected routes whose x-api-key
header is not byte-for-byte the configured secret (including an absent
header) is answered 401 with success false and error "Unauthorized", and
the handler never runs: state unchanged, no collaborator call, no timer. -/
theorem api_key_mismatch_401 (key : String) (hdr : Option String)
    (hne : hdr ≠ some key) (s : ServerState) (o : SendOracle)
    (body : SendBody) (q : Except String (Option String))
    (lo : LogoutOracle) (d : Option String) :
    protect hdr key (sendMessageRoute o body) s =
      { resp := { status := 401, success := some false, error := some "Unauthorized" },
        state := s, calls := [], timers := [] } ∧
    protect hdr key (statusRoute q) s =
      { resp := { status := 401, success := some false, error := some "Unauthorized" },
        state := s, calls := [], timers := [] } ∧
    protect hdr key (logoutRoute lo) s =
      { resp := { status := 401, success := some false, error := some "Unauthorized" },
        state := s, calls := [], timers := [] } ∧
    protect hdr key (restartRoute d) s =
      { resp := { status := 401, success := some false, error := some "Unauthorized" },
        state := s, calls := [], timers := [] } := by
  have h : checkApiKey hdr key = false := by
    simpa [checkApiKey] using hne
  refine ⟨?_, ?_, ?_, ?_⟩ <;> simp [protect, h, unauthorizedResp]

/-- Witness for C5: an absent header against the secret "secret". -/
theorem api_key_mismatch_401_witness :
    protect none "secret"
        (sendMessageRoute { getStateResult := Except.ok (some "CONNECTED"), sendResult := Except.ok "ID" }
          { chatId := some (JsValue.str "123"), content := some (JsValue.str "hi") }) initialState =
      { resp := { status := 401, success := some false, error := some "Unauthorized" },
        state := initialState, calls := [], timers := [] } ∧
    protect none "secret" (statusRoute (Except.ok (some "CONNECTED"))) initialState =
      { resp := { status := 401, success := some false, error := some "Unauthorized" },
        state := initialState, calls := [], timers := [] } ∧
    protect none "secret" (logoutRoute { logoutResult := none, destroyResult := none }) initialState =
      { resp := { status := 401, success := some false, error := some "Unauthorized" },
        state := initialState, calls := [], timers := [] } ∧
    protect none "secret" (restartRoute none) initialState =
      { resp := { status := 401, success := some false, error := some "Unauthorized" },
        state := initialState, calls := [], timers := [] } :=
  api_key_mismatch_401 "secret" none (by decide) initialState
    { getStateResult := Except.ok (some "CONNECTED"), sendResult := Except.ok "ID" }
    { chatId := some (JsValue.str "123"), content := some (JsValue.str "hi") }
    (Except.ok (some "CONNECTED")) { logoutResult := none, destroyResult := none } none

/-- C6: a send request whose body lacks the chatId key or lacks the content
key is answered 400 with success false and error "Missing chatId or
content", and the collaborator is never reached: no state query, no send,
state unchanged, nothing scheduled. -/
theorem send_missing_fields_400 (o : SendOracle) (body : SendBody)
    (s : ServerState) (h : body.chatId = none ∨ body.content = none) :
    sendMessageRoute o body s =
      { resp := { status := 400, success := some false, error := some "Missing chatId or content" },
        state := s, calls := [], timers := [] } := by
  rcases h with h | h <;> simp [sendMessageRoute, h, jsTruthy]

/-- Witness for C6: an empty body. -/
theorem send_missing_fields_400_witness :
    sendMessageRoute { getStateResult := Except.ok (some "CONNECTED"), sendResult := Except.ok "ID" }
        { chatId := none, content := none } initialState =
      { resp := { status := 400, success := some false, error := some "Missing chatId or content" },
        state := initialState, calls := [], timers := [] } :=
  send_missing_fields_400
    { getStateResult := Except.ok (some "CONNECTED"), sendResult := Except.ok "ID" }
    { chatId := none, content := none } initialState (Or.inl rfl)

/-- C7: when `client.logout()` rejects the handler falls back to
`client.destroy()`; when that also rejects, the restart flag is back to
false in the state the handler leaves, and the response is 500 whose error
field is the stringified original logout error, not the destroy error. -/
theorem logout_double_failure_original_error (o : LogoutOracle)
    (s : ServerState) (hflag : s.isRestarting = false) (e1 e2 : String)
    (h1 : o.logoutResult = some e1) (h2 : o.destroyResult = some e2) :
    logoutRoute o s =
      { resp := { status := 500, success := some false, error := some e1 },
        state := s, calls := [CollabCall.clientLogout, CollabCall.destroy], timers := [] } := by
  obtain ⟨a, b, c⟩ := s
  simp only [ServerState.isRestarting] at hflag
  simp [logoutRoute, h1, h2, hflag]

/-- Witness for C7: logout and destroy both reject with distinct errors;
the original logout error is reported. -/
theorem logout_double_failure_original_error_witness :
    logoutRoute { logoutResult := some "Error: logout failed", destroyResult := some "Error: destroy failed" }
        initialState =
      { resp := { status := 500, success := some false, error := some "Error: logout failed" },
        state := initialState, calls := [CollabCall.clientLogout, CollabCall.destroy], timers := [] } :=
  logout_double_failure_original_error
    { logoutResult := some "Error: logout failed", destroyResult := some "Error: destroy failed" }
    initialState rfl "Error: logout failed" "Error: destroy failed" rfl rfl

/-- C9: the qr event handler sets the cache to INITIALIZING and clears the
initialization flag even though the session is not yet connected, so a
`safeInitialize` call right after a qr event is no longer a no-op: it
performs the `client.initialize()` invocation. -/
theorem qr_clears_flag_enables_reinit (s : ServerState) (reason : String)
    (thr : Bool) :
    (lifecycleStep Lifecycle.qr s).cachedState = "INITIALIZING" ∧
    (lifecycleStep Lifecycle.qr s).isInitializing = false ∧
    (safeInitialize reason thr (lifecycleStep Lifecycle.qr s)).2 =
      [CollabCall.initClient] := by
  refine ⟨rfl, rfl, ?_⟩
  cases thr <;> rfl

/-- C10: a send request whose chatId or content key is present but holds a
falsy value (empty string, 0, false or null) is handled exactly like one
whose key is absent: the whole handler result coincides with the
absent-body one, the response is the same 400 with "Missing chatId or
content", and no collaborator call is made. -/
theorem send_falsy_fields_400 (o : SendOracle) (body : SendBody)
    (s : ServerState)
    (h : (∃ v, body.chatId = some v ∧ v.truthy = false) ∨
         (∃ v, body.content = some v ∧ v.truthy = false)) :
    sendMessageRoute o body s =
      sendMessageRoute o { chatId := none, content := none } s ∧
    (sendMessageRoute o body s).resp =
      { status := 400, success := some false, error := some "Missing chatId or content" } ∧
    (sendMessageRoute o body s).calls = [] := by
  have hb : (!jsTruthy body.chatId || !jsTruthy body.content) = true := by
    rcases h with ⟨v, hv, ht⟩ | ⟨v, hv, ht⟩ <;> simp [hv, jsTruthy, ht]
  have hmain : sendMessageRoute o body s =
      { resp := { status := 400, success := some false, error := some "Missing chatId or content" },
        state := s, calls := [], timers := [] } := by
    unfold sendMessageRoute
    rw [hb]
    simp
  have hnone : sendMessageRoute o { chatId := none, content := none } s =
      { resp := { status := 400, success := some false, error := some "Missing chatId or content" },
        state := s, calls := [], timers := [] } := by
    simp [sendMessageRoute, jsTruthy]
  exact ⟨hmain.trans hnone.symm, by rw [hmain], by rw [hmain]⟩

/-- Witness for C10: chatId present as the empty string. -/
theorem send_falsy_fields_400_witness :
    sendMessageRoute { getStateResult := Except.ok (some "CONNECTED"), sendResult := Except.ok "ID" }
        { chatId := some (JsValue.str ""), content := some (JsValue.str "hi") } initialState =
      sendMessageRoute { getStateResult := Except.ok (some "CONNECTED"), sendResult := Except.ok "ID" }
        { chatId := none, content := none } initialState ∧
    (sendMessageRoute { getStateResult := Except.ok (some "CONNECTED"), sendResult := Except.ok "ID" }
        { chatId := some (JsValue.str ""), content := some (JsValue.str "hi") } initialState).resp =
      { status := 400, success := some false, error := some "Missing chatId or content" } ∧
    (sendMessageRoute { getStateResult := Except.ok (some "CONNECTED"), sendResult := Except.ok "ID" }
        { chatId := some (JsValue.str ""), content := some (JsValue.str "hi") } initialState).calls = [] :=
  send_falsy_fields_400
    { getStateResult := Except.ok (some "CONNECTED"), sendResult := Except.ok "ID" }
    { chatId := some (JsValue.str ""), content := some (JsValue.str "hi") } initialState
    (Or.inl ⟨JsValue.str "", rfl, by decide⟩)

/-- Appending a send call leaves the number of getState calls unchanged. -/
theorem count_getState_append_send (a b : Option JsValue)
    (pre : List CollabCall) :
    getStateCount (pre ++ [CollabCall.send a b]) = getStateCount pre := by
  simp [getStateCount, List.count_append]

/-- A call list ending in a send call contains a send call. -/
theorem hasSend_append_send (a b : Option JsValue) (pre : List CollabCall) :
    hasSend (pre ++ [CollabCall.send a b]) = true := by
  simp [hasSend]

/-- The calls the send tail makes: the calls so far plus one send. -/
theorem finishSend_calls (o : SendOracle) (body : SendBody) (s : ServerState)
    (calls : List CollabCall) :
    (finishSend o body s calls).calls =
      calls ++ [CollabCall.send body.chatId body.content] := by
  unfold finishSend
  rcases o.sendResult with e | mid <;> rfl

/-- C3: a well-formed authenticated send request made while the connection
state is DISCONNECTED or INITIALIZING — the cached value is one of the two
and the live query the handler then performs resolves to one of the two or
to a nullish value (displayed as INITIALIZING) — is answered 503
service-unavailable carrying the current state, and the collaborator's
send operation is never invoked. -/
theorem send_not_connected_503 (o : SendOracle) (body : SendBody)
    (s : ServerState) (live : Option String)
    (hc : jsTruthy body.chatId = true) (hd : jsTruthy body.content = true)
    (hcache : s.cachedState = "DISCONNECTED" ∨ s.cachedState = "INITIALIZING")
    (hq : o.getStateResult = Except.ok live)
    (hlive : live = some "DISCONNECTED" ∨ live = some "INITIALIZING" ∨ live = none) :
    (sendMessageRoute o body s).resp.status = 503 ∧
    (sendMessageRoute o body s).resp.error =
      some ("WhatsApp client not ready. Current state: " ++ jsOrStr live "INITIALIZING") ∧
    hasSend (sendMessageRoute o body s).calls = false := by
  have hcc : ¬ s.cachedState = "CONNECTED" := by
    rcases hcache with h | h <;> simp [h]
  have hlc : ¬ live = some "CONNECTED" := by
    rcases hlive with h | h | h <;> simp [h]
  refine ⟨?_, ?_, ?_⟩ <;> simp [sendMessageRoute, hc, hd, hq, hcc, hlc, hasSend]

/-- Witness for C3: cache DISCONNECTED, live query also DISCONNECTED. -/
theorem send_not_connected_503_witness :
    (sendMessageRoute { getStateResult := Except.ok (some "DISCONNECTED"), sendResult := Except.ok "ID" }
        { chatId := some (JsValue.str "123"), content := some (JsValue.str "hi") }
        { isInitializing := false, isRestarting := false, cachedState := "DISCONNECTED" }).resp.status = 503 ∧
    (sendMessageRoute { getStateResult := Except.ok (some "DISCONNECTED"), sendResult := Except.ok "ID" }
        { chatId := some (JsValue.str "123"), content := some (JsValue.str "hi") }
        { isInitializing := false, isRestarting := false, cachedState := "DISCONNECTED" }).resp.error =
      some ("WhatsApp client not ready. Current state: " ++ jsOrStr (some "DISCONNECTED") "INITIALIZING") ∧
    hasSend (sendMessageRoute { getStateResult := Except.ok (some "DISCONNECTED"), sendResult := Except.ok "ID" }
        { chatId := some (JsValue.str "123"), content := some (JsValue.str "hi") }
        { isInitializing := false, isRestarting := false, cachedState := "DISCONNECTED" }).calls = false :=
  send_not_connected_503
    { getStateResult := Except.ok (some "DISCONNECTED"), sendResult := Except.ok "ID" }
    { chatId := some (JsValue.str "123"), content := some (JsValue.str "hi") }
    { isInitializing := false, isRestarting := false, cachedState := "DISCONNECTED" }
    (some "DISCONNECTED") rfl rfl (Or.inl rfl) rfl (Or.inl rfl)

/-- C4: for a well-formed authenticated send request, if the cached state
is CONNECTED then no live query happens and the handler delegates straight
to the send call with the state untouched; otherwise exactly one live
query happens, a resolved result refreshes the cache to state || cached
(so a falsy result leaves the previous value), and a rejected query leaves
the cache unchanged. -/
theorem send_state_query_policy (o : SendOracle) (body : SendBody)
    (s : ServerState)
    (hc : jsTruthy body.chatId = true) (hd : jsTruthy body.content = true) :
    (s.cachedState = "CONNECTED" →
        getStateCount (sendMessageRoute o body s).calls = 0 ∧
        hasSend (sendMessageRoute o body s).calls = true ∧
        (sendMessageRoute o body s).state = s) ∧
    (s.cachedState ≠ "CONNECTED" →
        getStateCount (sendMessageRoute o body s).calls = 1 ∧
        (∀ live, o.getStateResult = Except.ok live →
            (sendMessageRoute o body s).state.cachedState = jsOrStr live s.cachedState ∧
            (strTruthy live = false →
              (sendMessageRoute o body s).state.cachedState = s.cachedState)) ∧
        (∀ e, o.getStateResult = Except.error e →
            (sendMessageRoute o body s).state.cachedState = s.cachedState)) := by
  constructor
  · intro hconn
    have hval : sendMessageRoute o body s = finishSend o body s [] := by
      simp [sendMessageRoute, hc, hd, hconn]
    rw [hval]
    refine ⟨?_, ?_, ?_⟩
    · rw [finishSend_calls]
      simpa using count_getState_append_send body.chatId body.content []
    · rw [finishSend_calls]
      exact hasSend_append_send body.chatId body.content []
    · exact finishSend_state o body s []
  · intro hnc
    rcases hg : o.getStateResult with e | live
    · have hval : sendMessageRoute o body s =
          { resp := { status := 500, success := some false, error := some e },
            state := s, calls := [CollabCall.getState], timers := [] } := by
        simp [sendMessageRoute, hc, hd, hnc, hg]
      refine ⟨by rw [hval]; rfl, ?_, ?_⟩
      · intro live hl
        cases hl
      · intro e2 he
        rw [hval]
    · by_cases hlc : live = some "CONNECTED"
      · have hval : sendMessageRoute o body s =
            finishSend o body { s with cachedState := jsOrStr live s.cachedState }
              [CollabCall.getState] := by
          simp [sendMessageRoute, hc, hd, hnc, hg, hlc]
        have hcalls : getStateCount (sendMessageRoute o body s).calls = 1 := by
          rw [hval, finishSend_calls, count_getState_append_send]
          rfl
        have hstate : (sendMessageRoute o body s).state.cachedState =
            jsOrStr live s.cachedState := by
          rw [hval, finishSend_state]
        refine ⟨hcalls, ?_, ?_⟩
        · intro l hl
          cases hl
          refine ⟨hstate, ?_⟩
          intro hf
          rw [hstate]
          simp [jsOrStr, hf]
        · intro e2 he
          cases he
      · have hval : sendMessageRoute o body s =
            { resp := { status := 503, success := some false, error := some ("WhatsApp client not ready. Current state: " ++ jsOrStr live "INITIALIZING") },
              state := { s with cachedState := jsOrStr live s.cachedState },
              calls := [CollabCall.getState], timers := [] } := by
          simp [sendMessageRoute, hc, hd, hnc, hg, hlc]
        refine ⟨by rw [hval]; rfl, ?_, ?_⟩
        · intro l hl
          cases hl
          refine ⟨by rw [hval], ?_⟩
          intro hf
          rw [hval]
          simp [jsOrStr, hf]
        · intro e2 he
          cases he

/-- Witness for C4: cached CONNECTED (no query, one send) at one input and
a falsy live result retaining the cache at another. -/
theorem send_state_query_policy_witness :
    (getStateCount (sendMessageRoute { getStateResult := Except.ok none, sendResult := Except.ok "ID" }
        { chatId := some (JsValue.str "123"), content := some (JsValue.str "hi") }
        { isInitializing := false, isRestarting := false, cachedState := "CONNECTED" }).calls = 0 ∧
      hasSend (sendMessageRoute { getStateResult := Except.ok none, sendResult := Except.ok "ID" }
        { chatId := some (JsValue.str "123"), content := some (JsValue.str "hi") }
        { isInitializing := false, isRestarting := false, cachedState := "CONNECTED" }).calls = true ∧
      (sendMessageRoute { getStateResult := Except.ok none, sendResult := Except.ok "ID" }
        { chatId := some (JsValue.str "123"), content := some (JsValue.str "hi") }
        { isInitializing := false, isRestarting := false, cachedState := "CONNECTED" }).state =
        { isInitializing := false, isRestarting := false, cachedState := "CONNECTED" }) ∧
    (getStateCount (sendMessageRoute { getStateResult := Except.ok none, sendResult := Except.ok "ID" }
        { chatId := some (JsValue.str "123"), content := some (JsValue.str "hi") }
        { isInitializing := false, isRestarting := false, cachedState := "DISCONNECTED" }).calls = 1 ∧
      (sendMessageRoute { getStateResult := Except.ok none, sendResult := Except.ok "ID" }
        { chatId := some (JsValue.str "123"), content := some (JsValue.str "hi") }
        { isInitializing := false, isRestarting := false, cachedState := "DISCONNECTED" }).state.cachedState =
        "DISCONNECTED") :=
  And.intro
    ((send_state_query_policy { getStateResult := Except.ok none, sendResult := Except.ok "ID" }
        { chatId := some (JsValue.str "123"), content := some (JsValue.str "hi") }
        { isInitializing := false, isRestarting := false, cachedState := "CONNECTED" } rfl rfl).1 rfl)
    (by
      have h := (send_state_query_policy { getStateResult := Except.ok none, sendResult := Except.ok "ID" }
        { chatId := some (JsValue.str "123"), content := some (JsValue.str "hi") }
        { isInitializing := false, isRestarting := false, cachedState := "DISCONNECTED" } rfl rfl).2
          (by decide)
      exact ⟨h.1, ((h.2.1 none rfl).2 rfl).trans rfl⟩)

/-- C8 counterexample: from the startup state, an authenticated status
request whose live query resolves to "OPENING" (one of the values the
collaborator can report) leaves the connection-state variable holding
"OPENING", which is none of INITIALIZING, CONNECTED, DISCONNECTED. -/
theorem cachedState_escapes_enum :
    (run "key" initialState
        [Event.initCall "startup" false,
         Event.statusReq (some "key") (Except.ok (some "OPENING"))]).1.cachedState =
      "OPENING" ∧ goodState "OPENING" = false := by
  constructor <;> rfl

/-- C8 (amended): the connection-state variable starts at INITIALIZING and
stays one of INITIALIZING, CONNECTED, DISCONNECTED at every reachable
point, provided every live state query in the run resolves to a documented
value or to a falsy one; a truthy query result is stored verbatim, so
without that proviso the invariant fails (see the counterexample). -/
theorem cachedState_enum_invariant (key : String) (es : List Event)
    (hes : ∀ e ∈ es, eventGoodQueries e = true) :
    goodState (run key initialState es).1.cachedState = true :=
  run_preserves_goodState key es initialState hes rfl

/-- Witness for the amended C8 on a concrete run exercising every kind of
mutation. -/
theorem cachedState_enum_invariant_witness :
    goodState (run "key" initialState
        [Event.initCall "startup" false,
         Event.lifecycle Lifecycle.qr,
         Event.statusReq (some "key") (Except.ok (some "CONNECTED")),
         Event.sendReq (some "key")
           { chatId := some (JsValue.str "1"), content := some (JsValue.str "m") }
           { getStateResult := Except.ok none, sendResult := Except.ok "ID" },
         Event.logoutReq (some "key") { logoutResult := none, destroyResult := none },
         Event.lifecycle Lifecycle.disconnected]).1.cachedState = true :=
  cachedState_enum_invariant "key"
    [Event.initCall "startup" false,
     Event.lifecycle Lifecycle.qr,
     Event.statusReq (some "key") (Except.ok (some "CONNECTED")),
     Event.sendReq (some "key")
       { chatId := some (JsValue.str "1"), content := some (JsValue.str "m") }
       { getStateResult := Except.ok none, sendResult := Except.ok "ID" },
     Event.logoutReq (some "key") { logoutResult := none, destroyResult := none },
     Event.lifecycle Lifecycle.disconnected]
    (by decide)

end Tillpoint
